import Mathlib

/-!
Shallow embedding of the MoveGroup kinematics service capability
(`moveit_ros/move_group/src/default_capabilities/kinematics_service_capability.cpp`):
the IK/FK request handlers, the IK-solution validity predicate, and the
planning-scene locking discipline.  Each handler additionally produces an
event trace recording shared-lock acquisition and release, pose-transform
resolution attempts, and solver invocations, so that the locking and
fail-fast properties of the handlers become provable statements about
traces.

External collaborators that are not part of this capability's source (the
TF transform capability behind `performTransform`, the iterative IK solver
behind `RobotState::setFromIK`, robot-state message conversion, collision
checking and constraint evaluation) are modelled as function-valued fields
of a `Ctx`/`PlanningScene` structure: the handlers are verified for every
possible behaviour of those collaborators.
-/

namespace MoveGroupKS

/-- The `moveit_msgs::msg::MoveItErrorCodes` values used by the kinematics
service capability. -/
inductive ErrorCode where
  | SUCCESS
  | INVALID_GROUP_NAME
  | INVALID_LINK_NAME
  | NO_IK_SOLUTION
  | FRAME_TRANSFORM_FAILURE
deriving DecidableEq

/-- Observable actions performed while handling one request: the planning
scene monitor's frame update, acquisition and release of the shared read
lock on the planning scene (`LockedPlanningSceneRO`), one attempted pose
transform resolution (`performTransform`), and one solver invocation
(`RobotState::setFromIK`). -/
inductive Event where
  | updateFrameTransforms
  | lockAcquire
  | lockRelease
  | transformCall
  | solverCall
deriving DecidableEq

/-- A pose, abstracted to an integer triple: the handlers never inspect the
numeric content of a pose, they only move poses between frames. -/
structure Pose where
  px : Int
  py : Int
  pz : Int
deriving DecidableEq

/-- `geometry_msgs::msg::PoseStamped`: a pose tagged with the frame it is
expressed in. -/
structure PoseStamped where
  frame_id : String
  pose : Pose
deriving DecidableEq

/-- A joint model group: its name and the variable indices of its joints
inside the full robot state vector. -/
structure JointModelGroup where
  name : String
  variableIndexList : List Nat
deriving DecidableEq

/-- `moveit::core::RobotState`: the joint position vector plus a flag
recording whether the link transforms are up to date with the positions
(`update()` recomputes them). -/
structure RobotState where
  positions : List Int
  transformsCurrent : Bool
deriving DecidableEq

/-- Write values `vs` into positions `ps` at the indices `is` (used by
`setJointGroupPositions` to write a group's joint values into the full
state vector). -/
def writePositions : List Int → List Nat → List Int → List Int
  | ps, [], _ => ps
  | ps, _ :: _, [] => ps
  | ps, i :: is, v :: vs => writePositions (ps.set i v) is vs

/-- `RobotState::setJointGroupPositions`: store the candidate joint values
of the group into the state; link transforms become stale. -/
def RobotState.setJointGroupPositions (s : RobotState) (jmg : JointModelGroup)
    (ik_solution : List Int) : RobotState :=
  { positions := writePositions s.positions jmg.variableIndexList ik_solution,
    transformsCurrent := false }

/-- `RobotState::update`: recompute the dependent link transforms. -/
def RobotState.update (s : RobotState) : RobotState :=
  { s with transformsCurrent := true }

/-- The collision side of the planning scene, as seen by this capability:
`PlanningScene::isStateColliding(state, group_name)`. -/
structure PlanningScene where
  isStateColliding : RobotState → String → Bool

/-- One kinematic constraint, abstracted to its satisfaction test on a
robot state. -/
structure KinematicConstraint where
  satisfiedAt : RobotState → Bool

/-- `moveit_msgs::msg::Constraints`: the constraint list carried by the
request. -/
structure Constraints where
  constraintList : List KinematicConstraint

/-- `moveit::core::isEmpty` on a `Constraints` message. -/
def Constraints.isEmptyMsg (c : Constraints) : Bool :=
  c.constraintList.isEmpty

/-- `kinematic_constraints::KinematicConstraintSet` after `add(...)`. -/
structure KinematicConstraintSet where
  constraintList : List KinematicConstraint

/-- Result of `KinematicConstraintSet::decide`. -/
structure ConstraintEvalResult where
  satisfied : Bool

/-- `KinematicConstraintSet::empty()`. -/
def KinematicConstraintSet.empty (k : KinematicConstraintSet) : Bool :=
  k.constraintList.isEmpty

/-- `KinematicConstraintSet::decide(state)`: all constraints satisfied. -/
def KinematicConstraintSet.decide (k : KinematicConstraintSet) (s : RobotState) :
    ConstraintEvalResult :=
  { satisfied := k.constraintList.all fun c => c.satisfiedAt s }

/-- `KinematicConstraintSet::add(constraints, transforms)` on a fresh set:
the constraints of the message become the set's constraints. -/
def KinematicConstraintSet.add (c : Constraints) : KinematicConstraintSet :=
  { constraintList := c.constraintList }

/-- `moveit::core::GroupStateValidityCallbackFn`: the validity callback fed
to the solver, deciding acceptance of a candidate joint solution. -/
abbrev GroupStateValidityCallbackFn :=
  RobotState → JointModelGroup → List Int → Bool

/-- `isIKSolutionValid` (anonymous namespace of the capability): apply the
candidate joint values to the state, update dependent transforms, then
accept when the state is collision-free (when a planning scene was
captured) and satisfies the constraint set (when a non-empty one was
built).  Returns the updated state together with the verdict. -/
def isIKSolutionValid (planning_scene : Option PlanningScene)
    (constraint_set : Option KinematicConstraintSet)
    (state : RobotState) (jmg : JointModelGroup) (ik_solution : List Int) :
    RobotState × Bool :=
  let st := (state.setJointGroupPositions jmg ik_solution).update
  (st,
    (match planning_scene with
      | none => true
      | some ps => ! ps.isStateColliding st jmg.name)
    &&
    (match constraint_set with
      | none => true
      | some cs => (cs.decide st).satisfied))

/-- The context of the capability: the robot model data and the external
collaborators it calls.  `performTransform` models the pose transform
resolver of `MoveGroupCapability` (not part of this capability's file):
`none` means the transform to the target frame failed, in which case the
caller keeps the untransformed pose.  The `setFromIK…` fields model the
iterative solver `RobotState::setFromIK`: `some` is the mutated solution
state, `none` the uniform failure signal. `robotStateMsgToRobotState`
models the message-to-state merge of `moveit/robot_state/conversions.h`
(merging an empty message is a no-op, so message emptiness is modelled by
an `Option`). -/
structure Ctx where
  modelFrame : String
  getJointModelGroup : String → Option JointModelGroup
  hasLinkModel : String → Bool
  getGlobalLinkTransform : RobotState → String → Pose
  performTransform : PoseStamped → String → Option PoseStamped
  sameFrame : String → String → Bool
  hasTFClient : Bool
  planningScene : PlanningScene
  currentState : RobotState
  robotStateMsgToRobotState : RobotState → RobotState → RobotState
  setFromIK : RobotState → JointModelGroup → Pose → Int →
    Option GroupStateValidityCallbackFn → Option RobotState
  setFromIKLink : RobotState → JointModelGroup → Pose → String → Int →
    Option GroupStateValidityCallbackFn → Option RobotState
  setFromIKMulti : RobotState → JointModelGroup → List Pose → List String → Int →
    Option GroupStateValidityCallbackFn → Option RobotState

/-- `moveit_msgs::msg::PositionIKRequest`.  `robot_state = none` models an
empty robot-state message (`moveit::core::isEmpty`). -/
structure PositionIKRequest where
  group_name : String
  robot_state : Option RobotState
  avoid_collisions : Bool
  ik_link_name : String
  ik_link_names : List String
  pose_stamped : PoseStamped
  pose_stamped_vector : List PoseStamped
  constraints : Constraints
  timeout : Int

/-- Outcome of `MoveGroupKinematicsService::computeIK`: the solution
message (written only on success, `none` models the untouched initial
message), the error code, and the events of transform resolution and
solver invocation. -/
structure IKOutcome where
  solution : Option RobotState
  error_code : ErrorCode
  events : List Event

/-- The transform loop of the multi-pose branch of `computeIK` (source
lines 130-143): resolve each pose into the default frame, aborting at the
first failure.  Returns the resolved poses (or `none` on failure) and one
`transformCall` event per attempted pose. -/
def transformPoses (ctx : Ctx) (ps : List PoseStamped) (frame : String) :
    Option (List Pose) × List Event :=
  match ps with
  | [] => (some [], [])
  | p :: rest =>
    match ctx.performTransform p frame with
    | none => (none, [Event.transformCall])
    | some q =>
      match transformPoses ctx rest frame with
      | (none, evs) => (none, Event.transformCall :: evs)
      | (some qs, evs) => (some (q.pose :: qs), Event.transformCall :: evs)

/-- `MoveGroupKinematicsService::computeIK`: resolve the joint group, merge
an explicit input state, branch on pose cardinality, resolve transforms,
invoke the solver, and map its outcome to an error code. -/
def computeIK (ctx : Ctx) (req : PositionIKRequest) (rs0 : RobotState)
    (constraint : Option GroupStateValidityCallbackFn) : IKOutcome :=
  match ctx.getJointModelGroup req.group_name with
  | none =>
    { solution := none, error_code := ErrorCode.INVALID_GROUP_NAME, events := [] }
  | some jmg =>
    let rs := match req.robot_state with
      | none => rs0
      | some m => ctx.robotStateMsgToRobotState m rs0
    let default_frame := ctx.modelFrame
    if req.pose_stamped_vector.length ≤ 1 then
      let req_pose := match req.pose_stamped_vector with
        | [] => req.pose_stamped
        | p :: _ => p
      let ik_link : String :=
        if req.pose_stamped_vector.isEmpty then req.ik_link_name
        else match req.ik_link_names with
          | [] => ""
          | l :: _ => l
      match ctx.performTransform req_pose default_frame with
      | none =>
        { solution := none, error_code := ErrorCode.FRAME_TRANSFORM_FAILURE,
          events := [Event.transformCall] }
      | some tp =>
        let result_ik :=
          if ik_link = "" then ctx.setFromIK rs jmg tp.pose req.timeout constraint
          else ctx.setFromIKLink rs jmg tp.pose ik_link req.timeout constraint
        match result_ik with
        | some rs2 =>
          { solution := some rs2, error_code := ErrorCode.SUCCESS,
            events := [Event.transformCall, Event.solverCall] }
        | none =>
          { solution := none, error_code := ErrorCode.NO_IK_SOLUTION,
            events := [Event.transformCall, Event.solverCall] }
    else
      if req.pose_stamped_vector.length ≠ req.ik_link_names.length then
        { solution := none, error_code := ErrorCode.INVALID_LINK_NAME, events := [] }
      else
        match transformPoses ctx req.pose_stamped_vector default_frame with
        | (none, evs) =>
          { solution := none, error_code := ErrorCode.FRAME_TRANSFORM_FAILURE,
            events := evs }
        | (some req_poses, evs) =>
          match ctx.setFromIKMulti rs jmg req_poses req.ik_link_names req.timeout
              constraint with
          | some rs2 =>
            { solution := some rs2, error_code := ErrorCode.SUCCESS,
              events := evs ++ [Event.solverCall] }
          | none =>
            { solution := none, error_code := ErrorCode.NO_IK_SOLUTION,
              events := evs ++ [Event.solverCall] }

/-- `moveit_msgs::srv::GetPositionIK::Response`. -/
structure GetPositionIKResponse where
  solution : Option RobotState
  error_code : ErrorCode

/-- The validity callback built in the locked branch of `computeIKService`:
`isIKSolutionValid` partially applied to the captured scene (when collision
avoidance was requested) and the constraint set (when non-empty). -/
def boundValidityFn (req : PositionIKRequest) (scene : PlanningScene) :
    GroupStateValidityCallbackFn :=
  fun s j sol =>
    (isIKSolutionValid
      (if req.avoid_collisions then some scene else none)
      (if (KinematicConstraintSet.add req.constraints).empty then none
        else some (KinematicConstraintSet.add req.constraints))
      s j sol).2

/-- `MoveGroupKinematicsService::computeIKService`: update frame
transforms, then decide the locking discipline: when the request asks for
collision avoidance or carries a non-empty constraint set, hold the shared
read lock for the whole `computeIK` call (the validity callback re-reads
world state); otherwise acquire the lock only to copy the current state
out, release it, and solve unconstrained. -/
def computeIKService (ctx : Ctx) (req : PositionIKRequest) :
    GetPositionIKResponse × List Event :=
  if req.avoid_collisions || ! req.constraints.isEmptyMsg then
    let rs := ctx.currentState
    let out := computeIK ctx req rs (some (boundValidityFn req ctx.planningScene))
    ({ solution := out.solution, error_code := out.error_code },
      [Event.updateFrameTransforms, Event.lockAcquire] ++ out.events ++
        [Event.lockRelease])
  else
    let rs := ctx.currentState
    let out := computeIK ctx req rs none
    ({ solution := out.solution, error_code := out.error_code },
      [Event.updateFrameTransforms, Event.lockAcquire, Event.lockRelease] ++
        out.events)

/-- `moveit_msgs::srv::GetPositionFK::Request`. -/
structure GetPositionFKRequest where
  header_frame_id : String
  fk_link_names : List String
  robot_state : Option RobotState

/-- `moveit_msgs::srv::GetPositionFK::Response`. -/
structure GetPositionFKResponse where
  fk_link_names : List String
  pose_stamped : List PoseStamped
  error_code : ErrorCode

/-- The robot state the FK handler computes poses from: the current state
with the request's explicit robot-state message merged in (source line
214; merging an empty message is a no-op). -/
def fkMergedState (ctx : Ctx) (req : GetPositionFKRequest) : RobotState :=
  match req.robot_state with
  | none => ctx.currentState
  | some m => ctx.robotStateMsgToRobotState m ctx.currentState

/-- The `do_transform` decision of the FK handler (source lines 207-209):
transform the poses into the caller's output frame only when that frame is
named, differs from the model frame, and a TF client is available. -/
def fkDoTransform (ctx : Ctx) (req : GetPositionFKRequest) : Bool :=
  (! req.header_frame_id.isEmpty) &&
    (! ctx.sameFrame req.header_frame_id ctx.modelFrame) && ctx.hasTFClient

/-- The per-link loop of `computeFKService` (source lines 215-226): for
each requested link that exists in the model, read its global transform,
stamp it in the default frame, optionally transform it into the output
frame (keeping the default-frame pose on failure but recording the
problem), and collect the link name.  Returns the matched names, the
poses, the transform-problem flag, and the transform events. -/
def fkLoop (ctx : Ctx) (rs : RobotState) (do_transform : Bool)
    (target default_frame : String) (links : List String) :
    List String × List PoseStamped × Bool × List Event :=
  match links with
  | [] => ([], [], false, [])
  | l :: rest =>
    let (ns, ps, tf, evs) := fkLoop ctx rs do_transform target default_frame rest
    if ctx.hasLinkModel l then
      let p0 : PoseStamped :=
        { frame_id := default_frame, pose := ctx.getGlobalLinkTransform rs l }
      let step : PoseStamped × Bool × List Event :=
        if do_transform then
          match ctx.performTransform p0 target with
          | some q => (q, false, [Event.transformCall])
          | none => (p0, true, [Event.transformCall])
        else (p0, false, [])
      (l :: ns, step.1 :: ps, step.2.1 || tf, step.2.2 ++ evs)
    else (ns, ps, tf, evs)

/-- `MoveGroupKinematicsService::computeFKService`: reject an empty
link-name list immediately; otherwise snapshot the current state under a
short lock, run the per-link loop, and map the outcome: transform problem
→ `FRAME_TRANSFORM_FAILURE`, all links matched → `SUCCESS`, otherwise
`INVALID_LINK_NAME`. -/
def computeFKService (ctx : Ctx) (req : GetPositionFKRequest) :
    GetPositionFKResponse × List Event :=
  if req.fk_link_names.isEmpty then
    ({ fk_link_names := [], pose_stamped := [],
        error_code := ErrorCode.INVALID_LINK_NAME }, [])
  else
    let default_frame := ctx.modelFrame
    let do_transform := fkDoTransform ctx req
    let rs := fkMergedState ctx req
    let (names, poses, tf_problem, evs) :=
      fkLoop ctx rs do_transform req.header_frame_id default_frame req.fk_link_names
    let ec :=
      if tf_problem then ErrorCode.FRAME_TRANSFORM_FAILURE
      else if names.length = req.fk_link_names.length then ErrorCode.SUCCESS
      else ErrorCode.INVALID_LINK_NAME
    ({ fk_link_names := names, pose_stamped := poses, error_code := ec },
      [Event.updateFrameTransforms, Event.lockAcquire, Event.lockRelease] ++ evs)

/-! ### Concrete instances used by witnesses -/

/-- A concrete joint model group. -/
def armGroup : JointModelGroup :=
  { name := "arm", variableIndexList := [0, 1] }

/-- A concrete pose. -/
def poseW : Pose := { px := 1, py := 0, pz := 1 }

/-- A concrete context: one group, two known links, transforms failing
exactly from the frame named `badframe`, a collision check that always
reports free, and a solver that succeeds on the candidate `[0, 0]` exactly
when the supplied validity callback (if any) accepts it. -/
def ctxW : Ctx :=
  { modelFrame := "world"
    getJointModelGroup := fun g => if g = "arm" then some armGroup else none
    hasLinkModel := fun l => l = "tip" || l = "base"
    getGlobalLinkTransform := fun _ _ => poseW
    performTransform := fun p target =>
      if p.frame_id = "badframe" then none else some { p with frame_id := target }
    sameFrame := fun a b => a = b
    hasTFClient := true
    planningScene := { isStateColliding := fun _ _ => false }
    currentState := { positions := [5, 5], transformsCurrent := true }
    robotStateMsgToRobotState := fun m _ => m
    setFromIK := fun rs jmg _ _ ofn =>
      match ofn with
      | none => some ((rs.setJointGroupPositions jmg [0, 0]).update)
      | some f =>
        if f rs jmg [0, 0] then some ((rs.setJointGroupPositions jmg [0, 0]).update)
        else none
    setFromIKLink := fun rs jmg _ _ _ ofn =>
      match ofn with
      | none => some ((rs.setJointGroupPositions jmg [0, 0]).update)
      | some f =>
        if f rs jmg [0, 0] then some ((rs.setJointGroupPositions jmg [0, 0]).update)
        else none
    setFromIKMulti := fun rs jmg _ _ _ ofn =>
      match ofn with
      | none => some ((rs.setJointGroupPositions jmg [0, 0]).update)
      | some f =>
        if f rs jmg [0, 0] then some ((rs.setJointGroupPositions jmg [0, 0]).update)
        else none }

/-- A baseline IK request against `ctxW`: known group, single good pose. -/
def reqW : PositionIKRequest :=
  { group_name := "arm"
    robot_state := none
    avoid_collisions := false
    ik_link_name := ""
    ik_link_names := []
    pose_stamped := { frame_id := "world", pose := poseW }
    pose_stamped_vector := []
    constraints := { constraintList := [] }
    timeout := 1 }

/-! ### Basic lemmas about the embedded handlers -/

/-- Every event of the multi-pose transform loop is a transform call. -/
theorem transformPoses_events_transform (ctx : Ctx) (frame : String) :
    ∀ ps : List PoseStamped, ∀ e ∈ (transformPoses ctx ps frame).2,
      e = Event.transformCall := by
  intro ps
  induction ps with
  | nil => intro e he; simp [transformPoses] at he
  | cons p rest ih =>
    intro e he
    simp only [transformPoses] at he
    rcases hp : ctx.performTransform p frame with _ | q
    · rw [hp] at he
      simpa using he
    · rw [hp] at he
      rcases hr : transformPoses ctx rest frame with ⟨r, evs⟩
      have hevs : ∀ e ∈ evs, e = Event.transformCall := by
        intro e' he'
        have := ih e'
        rw [hr] at this
        exact this he'
      rcases r with _ | qs <;> rw [hr] at he <;> simp at he <;>
        rcases he with he | he
      · exact he
      · exact hevs e he
      · exact he
      · exact hevs e he

/-- Every event emitted by `computeIK` is a transform call or a solver
call: in particular `computeIK` performs no lock operation. -/
theorem computeIK_events (ctx : Ctx) (req : PositionIKRequest) (rs0 : RobotState)
    (c : Option GroupStateValidityCallbackFn) :
    ∀ e ∈ (computeIK ctx req rs0 c).events,
      e = Event.transformCall ∨ e = Event.solverCall := by
  intro e he
  unfold computeIK at he
  rcases hg : ctx.getJointModelGroup req.group_name with _ | jmg <;> rw [hg] at he
  · simp at he
  · dsimp only at he
    split at he
    · split at he
      · simp at he
        exact Or.inl he
      · split at he <;> simp at he <;>
          rcases he with he | he <;> simp [he]
    · split at he
      · simp at he
      · rcases ht : transformPoses ctx req.pose_stamped_vector ctx.modelFrame
          with ⟨r, evs⟩
        have hevs : ∀ e ∈ evs, e = Event.transformCall := by
          intro e' he'
          have := transformPoses_events_transform ctx ctx.modelFrame
            req.pose_stamped_vector e'
          rw [ht] at this
          exact this he'
        rcases r with _ | qs <;> rw [ht] at he <;> dsimp only at he
        · exact Or.inl (hevs e he)
        · split at he <;> simp at he <;>
            rcases he with he | he
          · exact Or.inl (hevs e he)
          · exact Or.inr he
          · exact Or.inl (hevs e he)
          · exact Or.inr he

/-- An unknown joint group resolves to nothing in `computeIK`, which then
reports `INVALID_GROUP_NAME` immediately, with no events. -/
theorem computeIK_invalid_group (ctx : Ctx) (req : PositionIKRequest)
    (rs0 : RobotState) (c : Option GroupStateValidityCallbackFn)
    (hg : ctx.getJointModelGroup req.group_name = none) :
    computeIK ctx req rs0 c =
      { solution := none, error_code := ErrorCode.INVALID_GROUP_NAME, events := [] } := by
  unfold computeIK
  rw [hg]

/-- The IK request against `ctxW` whose group name resolves to no group. -/
def reqBadGroup : PositionIKRequest := { reqW with group_name := "nope" }

/-- C1, counterexample: at a concrete request whose group name does not
resolve, the handler does return `INVALID_GROUP_NAME`, but the shared
read lock on the planning scene IS acquired (the trace contains a
`lockAcquire`), contradicting the claim that the failure occurs without
acquiring the WorldModel lock. -/
theorem invalidGroup_lock_counterexample :
    (computeIKService ctxW reqBadGroup).1.error_code = ErrorCode.INVALID_GROUP_NAME ∧
    Event.lockAcquire ∈ (computeIKService ctxW reqBadGroup).2 := by
  decide

/-- C1, amended: for every IK request whose group name does not resolve to
a joint group, the service returns `INVALID_GROUP_NAME` without invoking
the solver and without any pose-transform resolution; the shared
WorldModel lock, however, is acquired (the current state is copied out
before the group name is validated). -/
theorem invalidGroup_fails_fast_amended (ctx : Ctx) (req : PositionIKRequest)
    (hg : ctx.getJointModelGroup req.group_name = none) :
    (computeIKService ctx req).1.error_code = ErrorCode.INVALID_GROUP_NAME ∧
    Event.solverCall ∉ (computeIKService ctx req).2 ∧
    Event.transformCall ∉ (computeIKService ctx req).2 ∧
    Event.lockAcquire ∈ (computeIKService ctx req).2 := by
  unfold computeIKService
  split <;>
    simp [computeIK_invalid_group ctx req ctx.currentState _ hg]

/-- C1 witness: the amended statement at the concrete bad-group request. -/
theorem invalidGroup_fails_fast_witness :
    (computeIKService ctxW reqBadGroup).1.error_code = ErrorCode.INVALID_GROUP_NAME ∧
    Event.solverCall ∉ (computeIKService ctxW reqBadGroup).2 ∧
    Event.transformCall ∉ (computeIKService ctxW reqBadGroup).2 ∧
    Event.lockAcquire ∈ (computeIKService ctxW reqBadGroup).2 :=
  invalidGroup_fails_fast_amended ctxW reqBadGroup (by decide)

/-- C2: the shared read lock is held around the whole `computeIK` call
(hence the whole solve) exactly when the request asks for collision
avoidance or carries a non-empty constraint set; otherwise the lock is
acquired and immediately released — only the current-state copy happens
under it — before any transform or solver event. -/
theorem lock_discipline (ctx : Ctx) (req : PositionIKRequest) :
    ((req.avoid_collisions || ! req.constraints.isEmptyMsg) = true →
      ∃ inner,
        (computeIKService ctx req).2 =
          [Event.updateFrameTransforms, Event.lockAcquire] ++ inner ++
            [Event.lockRelease] ∧
        Event.lockAcquire ∉ inner ∧ Event.lockRelease ∉ inner) ∧
    ((req.avoid_collisions || ! req.constraints.isEmptyMsg) = false →
      ∃ tail,
        (computeIKService ctx req).2 =
          [Event.updateFrameTransforms, Event.lockAcquire, Event.lockRelease] ++
            tail ∧
        Event.lockAcquire ∉ tail ∧ Event.lockRelease ∉ tail) := by
  constructor
  · intro hc
    refine ⟨(computeIK ctx req ctx.currentState
      (some (boundValidityFn req ctx.planningScene))).events, ?_, ?_, ?_⟩
    · simp [computeIKService, hc]
    · intro hmem
      rcases computeIK_events ctx req ctx.currentState _ _ hmem with h | h <;>
        simp at h
    · intro hmem
      rcases computeIK_events ctx req ctx.currentState _ _ hmem with h | h <;>
        simp at h
  · intro hc
    refine ⟨(computeIK ctx req ctx.currentState none).events, ?_, ?_, ?_⟩
    · simp [computeIKService, hc]
    · intro hmem
      rcases computeIK_events ctx req ctx.currentState _ _ hmem with h | h <;>
        simp at h
    · intro hmem
      rcases computeIK_events ctx req ctx.currentState _ _ hmem with h | h <;>
        simp at h

/-- C2 witness: both lock disciplines at concrete requests — collision
avoidance requested (held-through-solve trace shape) and fully
unconstrained (snapshot-and-release trace shape). -/
theorem lock_discipline_witness :
    (∃ inner,
        (computeIKService ctxW { reqW with avoid_collisions := true }).2 =
          [Event.updateFrameTransforms, Event.lockAcquire] ++ inner ++
            [Event.lockRelease] ∧
        Event.lockAcquire ∉ inner ∧ Event.lockRelease ∉ inner) ∧
    (∃ tail,
        (computeIKService ctxW reqW).2 =
          [Event.updateFrameTransforms, Event.lockAcquire, Event.lockRelease] ++
            tail ∧
        Event.lockAcquire ∉ tail ∧ Event.lockRelease ∉ tail) :=
  ⟨(lock_discipline ctxW { reqW with avoid_collisions := true }).1 (by decide),
    (lock_discipline ctxW reqW).2 (by decide)⟩

/-- C6: an FK request with an empty link-name list is rejected immediately
with `INVALID_LINK_NAME`: the response lists stay empty and no event at
all (in particular no lock acquisition) is performed. -/
theorem fk_empty_links_rejected (ctx : Ctx) (req : GetPositionFKRequest)
    (h : req.fk_link_names = []) :
    (computeFKService ctx req).1.error_code = ErrorCode.INVALID_LINK_NAME ∧
    (computeFKService ctx req).1.fk_link_names = [] ∧
    (computeFKService ctx req).1.pose_stamped = [] ∧
    (computeFKService ctx req).2 = [] := by
  simp [computeFKService, h]

/-- The concrete empty FK request. -/
def reqFKempty : GetPositionFKRequest :=
  { header_frame_id := "", fk_link_names := [], robot_state := none }

/-- C6 witness: the empty-list rejection at the concrete empty request. -/
theorem fk_empty_links_rejected_witness :
    (computeFKService ctxW reqFKempty).1.error_code = ErrorCode.INVALID_LINK_NAME ∧
    (computeFKService ctxW reqFKempty).1.fk_link_names = [] ∧
    (computeFKService ctxW reqFKempty).1.pose_stamped = [] ∧
    (computeFKService ctxW reqFKempty).2 = [] :=
  fk_empty_links_rejected ctxW reqFKempty rfl

/-- C3: the composed validity predicate first applies the candidate joint
values and updates dependent transforms — the state it hands to both tests
(and returns) is exactly the updated written state — then tests
collision-freeness only when a scene snapshot is present and constraint
satisfaction only when a constraint set is present; a failing collision
test alone already forces a `false` verdict, and with neither ingredient
the predicate is trivially true. -/
theorem validity_predicate_composition (ps : Option PlanningScene)
    (cs : Option KinematicConstraintSet) (s : RobotState)
    (jmg : JointModelGroup) (sol : List Int) :
    (isIKSolutionValid ps cs s jmg sol).1 =
      (s.setJointGroupPositions jmg sol).update ∧
    ((isIKSolutionValid ps cs s jmg sol).2 = true ↔
      (∀ p, ps = some p →
        p.isStateColliding ((s.setJointGroupPositions jmg sol).update) jmg.name
          = false) ∧
      (∀ c, cs = some c →
        (c.decide ((s.setJointGroupPositions jmg sol).update)).satisfied
          = true)) ∧
    (∀ p, ps = some p →
      p.isStateColliding ((s.setJointGroupPositions jmg sol).update) jmg.name
        = true →
      (isIKSolutionValid ps cs s jmg sol).2 = false) ∧
    (isIKSolutionValid none none s jmg sol).2 = true := by
  rcases ps with _ | p <;> rcases cs with _ | c <;>
    simp [isIKSolutionValid, Bool.and_eq_true, Bool.not_eq_true']
  intro h1 h2
  rw [h1] at h2
  exact absurd h2 (by simp)

/-- A planning scene whose collision check always reports a collision. -/
def collidingScene : PlanningScene := { isStateColliding := fun _ _ => true }

/-- C3 witness: at a concrete colliding scene and candidate, the composed
predicate rejects the candidate. -/
theorem validity_predicate_composition_witness :
    (isIKSolutionValid (some collidingScene) none ctxW.currentState armGroup
      [0, 0]).2 = false :=
  (validity_predicate_composition (some collidingScene) none ctxW.currentState
    armGroup [0, 0]).2.2.1 collidingScene rfl (by decide)

/-- In the multi-pose branch with mismatched pose/link counts, `computeIK`
fails with `INVALID_LINK_NAME` before any transform or solver work. -/
theorem computeIK_multi_mismatch (ctx : Ctx) (req : PositionIKRequest)
    (rs0 : RobotState) (c : Option GroupStateValidityCallbackFn)
    (jmg : JointModelGroup)
    (hg : ctx.getJointModelGroup req.group_name = some jmg)
    (hlen : 1 < req.pose_stamped_vector.length)
    (hne : req.pose_stamped_vector.length ≠ req.ik_link_names.length) :
    computeIK ctx req rs0 c =
      { solution := none, error_code := ErrorCode.INVALID_LINK_NAME,
        events := [] } := by
  unfold computeIK
  rw [hg]
  have h1 : ¬ req.pose_stamped_vector.length ≤ 1 := by omega
  simp [h1, hne]

/-- C5: a multi-pose IK request (more than one pose) whose pose count
differs from its link-name count yields `INVALID_LINK_NAME`, with no
solver invocation and no transform resolution. -/
theorem multi_pose_count_mismatch (ctx : Ctx) (req : PositionIKRequest)
    (jmg : JointModelGroup)
    (hg : ctx.getJointModelGroup req.group_name = some jmg)
    (hlen : 1 < req.pose_stamped_vector.length)
    (hne : req.pose_stamped_vector.length ≠ req.ik_link_names.length) :
    (computeIKService ctx req).1.error_code = ErrorCode.INVALID_LINK_NAME ∧
    Event.solverCall ∉ (computeIKService ctx req).2 ∧
    Event.transformCall ∉ (computeIKService ctx req).2 := by
  unfold computeIKService
  split <;> simp [computeIK_multi_mismatch ctx req ctx.currentState _ jmg hg hlen hne]

/-- The concrete mismatched multi-pose request: two poses, one link name. -/
def reqMismatch : PositionIKRequest :=
  { reqW with
    pose_stamped_vector :=
      [{ frame_id := "world", pose := poseW }, { frame_id := "world", pose := poseW }]
    ik_link_names := ["tip"] }

/-- C5 witness: the mismatch rejection at the concrete two-pose one-link
request. -/
theorem multi_pose_count_mismatch_witness :
    (computeIKService ctxW reqMismatch).1.error_code = ErrorCode.INVALID_LINK_NAME ∧
    Event.solverCall ∉ (computeIKService ctxW reqMismatch).2 ∧
    Event.transformCall ∉ (computeIKService ctxW reqMismatch).2 :=
  multi_pose_count_mismatch ctxW reqMismatch armGroup (by decide) (by decide)
    (by decide)

/-- `computeIK` leaves the solution message unwritten exactly when it does
not report `SUCCESS`. -/
theorem computeIK_solution_none_iff (ctx : Ctx) (req : PositionIKRequest)
    (rs0 : RobotState) (c : Option GroupStateValidityCallbackFn) :
    ((computeIK ctx req rs0 c).solution = none ↔
      (computeIK ctx req rs0 c).error_code ≠ ErrorCode.SUCCESS) := by
  unfold computeIK
  rcases ctx.getJointModelGroup req.group_name with _ | jmg
  · simp
  · dsimp only
    split
    · split
      · simp
      · split <;> simp
    · split
      · simp
      · split
        · simp
        · split <;> simp

/-- C9: at the service level the response's solution field is written
exactly on `SUCCESS`: any other error code leaves it at its initial empty
value. -/
theorem ik_solution_written_iff_success (ctx : Ctx) (req : PositionIKRequest) :
    ((computeIKService ctx req).1.solution = none ↔
      (computeIKService ctx req).1.error_code ≠ ErrorCode.SUCCESS) := by
  unfold computeIKService
  split
  · exact computeIK_solution_none_iff ctx req ctx.currentState _
  · exact computeIK_solution_none_iff ctx req ctx.currentState none

/-- The pose the single-pose branch of `computeIK` resolves: the first
vector entry when the vector is non-empty, the plain `pose_stamped` field
otherwise (source lines 99-100). -/
def singleReqPose (req : PositionIKRequest) : PoseStamped :=
  match req.pose_stamped_vector with
  | [] => req.pose_stamped
  | p :: _ => p

/-- When every pose before `failp` transforms and `failp` does not, the
multi-pose transform loop aborts at `failp`: it fails, and attempts
exactly the poses up to and including `failp` (the remaining `post` poses
are never attempted). -/
theorem transformPoses_abort (ctx : Ctx) (frame : String) :
    ∀ (pre : List PoseStamped) (failp : PoseStamped) (post : List PoseStamped),
      (∀ q ∈ pre, (ctx.performTransform q frame).isSome) →
      ctx.performTransform failp frame = none →
      transformPoses ctx (pre ++ failp :: post) frame =
        (none, List.replicate (pre.length + 1) Event.transformCall) := by
  intro pre
  induction pre with
  | nil =>
    intro failp post _ hf
    simp [transformPoses, hf]
  | cons q pre ih =>
    intro failp post hpre hf
    have hq : (ctx.performTransform q frame).isSome := hpre q (by simp)
    rcases hs : ctx.performTransform q frame with _ | q2
    · rw [hs] at hq
      simp at hq
    · have hrec := ih failp post (fun r hr => hpre r (by simp [hr])) hf
      simp only [List.cons_append, transformPoses, hs, List.append_eq, hrec]
      simp [List.replicate_succ]

/-- Single-pose branch: a failing transform makes `computeIK` fail with
`FRAME_TRANSFORM_FAILURE` after exactly one transform attempt and no
solver call. -/
theorem computeIK_single_transform_fail (ctx : Ctx) (req : PositionIKRequest)
    (rs0 : RobotState) (c : Option GroupStateValidityCallbackFn)
    (jmg : JointModelGroup)
    (hg : ctx.getJointModelGroup req.group_name = some jmg)
    (hlen : req.pose_stamped_vector.length ≤ 1)
    (hf : ctx.performTransform (singleReqPose req) ctx.modelFrame = none) :
    computeIK ctx req rs0 c =
      { solution := none, error_code := ErrorCode.FRAME_TRANSFORM_FAILURE,
        events := [Event.transformCall] } := by
  rcases hv : req.pose_stamped_vector with _ | ⟨p, rest⟩
  · unfold computeIK
    rw [hg]
    simp only [singleReqPose, hv] at hf
    simp [hv, hf]
  · rcases rest with _ | ⟨p2, rest2⟩
    · unfold computeIK
      rw [hg]
      simp only [singleReqPose, hv] at hf
      simp [hv, hf]
    · rw [hv] at hlen
      simp at hlen

/-- Multi-pose branch: matched counts, all poses before `failp` transform,
`failp` does not — `computeIK` fails with `FRAME_TRANSFORM_FAILURE` after
exactly `pre.length + 1` transform attempts, with no solver call. -/
theorem computeIK_multi_transform_fail (ctx : Ctx) (req : PositionIKRequest)
    (rs0 : RobotState) (c : Option GroupStateValidityCallbackFn)
    (jmg : JointModelGroup)
    (hg : ctx.getJointModelGroup req.group_name = some jmg)
    (hlen : 1 < req.pose_stamped_vector.length)
    (heq : req.pose_stamped_vector.length = req.ik_link_names.length)
    (pre : List PoseStamped) (failp : PoseStamped) (post : List PoseStamped)
    (hsplit : req.pose_stamped_vector = pre ++ failp :: post)
    (hpre : ∀ q ∈ pre, (ctx.performTransform q ctx.modelFrame).isSome)
    (hf : ctx.performTransform failp ctx.modelFrame = none) :
    computeIK ctx req rs0 c =
      { solution := none, error_code := ErrorCode.FRAME_TRANSFORM_FAILURE,
        events := List.replicate (pre.length + 1) Event.transformCall } := by
  have h1 : ¬ req.pose_stamped_vector.length ≤ 1 := by omega
  have h2 : ¬ req.pose_stamped_vector.length ≠ req.ik_link_names.length := by
    omega
  unfold computeIK
  rw [hg]
  dsimp only
  rw [if_neg h1, if_neg h2, hsplit,
    transformPoses_abort ctx ctx.modelFrame pre failp post hpre hf]

/-- C4: a frame-transform failure makes IK fail with
`FRAME_TRANSFORM_FAILURE` and the solver is never invoked; in the
multi-pose case a failure on pose k (after k successful transforms)
aborts: exactly k+1 transforms are attempted and no solve happens. -/
theorem transform_failure_aborts (ctx : Ctx) (req : PositionIKRequest)
    (jmg : JointModelGroup)
    (hg : ctx.getJointModelGroup req.group_name = some jmg) :
    (req.pose_stamped_vector.length ≤ 1 →
      ctx.performTransform (singleReqPose req) ctx.modelFrame = none →
      (computeIKService ctx req).1.error_code = ErrorCode.FRAME_TRANSFORM_FAILURE ∧
      Event.solverCall ∉ (computeIKService ctx req).2) ∧
    (∀ (pre : List PoseStamped) (failp : PoseStamped) (post : List PoseStamped),
      req.pose_stamped_vector = pre ++ failp :: post →
      1 < req.pose_stamped_vector.length →
      req.pose_stamped_vector.length = req.ik_link_names.length →
      (∀ q ∈ pre, (ctx.performTransform q ctx.modelFrame).isSome) →
      ctx.performTransform failp ctx.modelFrame = none →
      (computeIKService ctx req).1.error_code = ErrorCode.FRAME_TRANSFORM_FAILURE ∧
      Event.solverCall ∉ (computeIKService ctx req).2 ∧
      (computeIKService ctx req).2.count Event.transformCall = pre.length + 1) := by
  constructor
  · intro hlen hf
    unfold computeIKService
    split <;>
      simp [computeIK_single_transform_fail ctx req ctx.currentState _ jmg hg hlen hf]
  · intro pre failp post hsplit hlen heq hpre hf
    unfold computeIKService
    split <;>
      simp [computeIK_multi_transform_fail ctx req ctx.currentState _ jmg hg hlen
          heq pre failp post hsplit hpre hf,
        List.count_append, List.count_replicate, List.count_cons]

/-- A pose stamped in a frame from which `ctxW.performTransform` fails. -/
def badPS : PoseStamped := { frame_id := "badframe", pose := poseW }

/-- A pose stamped in a frame from which `ctxW.performTransform` succeeds. -/
def goodPS : PoseStamped := { frame_id := "other", pose := poseW }

/-- The concrete single-pose request whose pose frame cannot be
transformed. -/
def reqBadFrame : PositionIKRequest := { reqW with pose_stamped := badPS }

/-- The concrete two-pose request whose second pose frame cannot be
transformed (counts matched). -/
def reqMultiBad : PositionIKRequest :=
  { reqW with
    pose_stamped_vector := [goodPS, badPS]
    ik_link_names := ["tip", "base"] }

/-- C4 witness: the transform-failure abort at concrete single-pose and
multi-pose requests — in the multi-pose case exactly two of the two
transforms are attempted (the failure is on the last pose) and the solver
is never invoked. -/
theorem transform_failure_aborts_witness :
    ((computeIKService ctxW reqBadFrame).1.error_code =
        ErrorCode.FRAME_TRANSFORM_FAILURE ∧
      Event.solverCall ∉ (computeIKService ctxW reqBadFrame).2) ∧
    ((computeIKService ctxW reqMultiBad).1.error_code =
        ErrorCode.FRAME_TRANSFORM_FAILURE ∧
      Event.solverCall ∉ (computeIKService ctxW reqMultiBad).2 ∧
      (computeIKService ctxW reqMultiBad).2.count Event.transformCall
        = [goodPS].length + 1) :=
  ⟨(transform_failure_aborts ctxW reqBadFrame armGroup (by decide)).1
      (by decide) (by decide),
    (transform_failure_aborts ctxW reqMultiBad armGroup (by decide)).2
      [goodPS] badPS [] (by decide) (by decide) (by decide) (by decide)
      (by decide)⟩

/-! ### FK response characterization -/

/-- The pose the FK loop stores for a matched link: the link's global
transform stamped in the default frame and, when an output-frame transform
is requested, re-expressed in the target frame — kept in the default frame
when that transform fails. -/
def fkPoseFor (ctx : Ctx) (rs : RobotState) (do_transform : Bool)
    (target default_frame : String) (l : String) : PoseStamped :=
  let p0 : PoseStamped :=
    { frame_id := default_frame, pose := ctx.getGlobalLinkTransform rs l }
  if do_transform then
    match ctx.performTransform p0 target with
    | some q => q
    | none => p0
  else p0

/-- Whether a requested link contributes a transform problem to the FK
response: it exists in the model, an output-frame transform is requested,
and that transform of its pose fails. -/
def fkTransformFails (ctx : Ctx) (rs : RobotState) (do_transform : Bool)
    (target default_frame : String) (l : String) : Bool :=
  ctx.hasLinkModel l && do_transform &&
    (ctx.performTransform
      { frame_id := default_frame, pose := ctx.getGlobalLinkTransform rs l }
      target).isNone

/-- Characterization of the FK per-link loop: the matched names are the
requested names filtered by model membership (in request order), the poses
are their `fkPoseFor` images, and the transform-problem flag is set
exactly when some requested link fails its output-frame transform. -/
theorem fkLoop_spec (ctx : Ctx) (rs : RobotState) (dt : Bool)
    (target df : String) :
    ∀ links : List String,
      (fkLoop ctx rs dt target df links).1 = links.filter ctx.hasLinkModel ∧
      (fkLoop ctx rs dt target df links).2.1 =
        (links.filter ctx.hasLinkModel).map (fkPoseFor ctx rs dt target df) ∧
      (fkLoop ctx rs dt target df links).2.2.1 =
        links.any (fkTransformFails ctx rs dt target df) := by
  intro links
  induction links with
  | nil => simp [fkLoop]
  | cons l rest ih =>
    rcases hr : fkLoop ctx rs dt target df rest with ⟨ns, ps, tfv, evs⟩
    rw [hr] at ih
    obtain ⟨ih1, ih2, ih3⟩ := ih
    dsimp only at ih1 ih2 ih3
    cases hl : ctx.hasLinkModel l
    · simp [fkLoop, hr, hl, List.filter_cons, List.any_cons, fkTransformFails,
        ih1, ih2, ih3]
    · cases hdt : dt
      · rw [hdt] at hr ih2 ih3
        simp [fkLoop, hr, hl, List.filter_cons, List.any_cons, fkPoseFor,
          fkTransformFails, ih1, ih2, ih3]
      · rw [hdt] at hr ih2 ih3
        rcases hp : ctx.performTransform
            { frame_id := df, pose := ctx.getGlobalLinkTransform rs l } target
          with _ | q <;>
          simp [fkLoop, hr, hl, hp, List.filter_cons, List.any_cons,
            fkPoseFor, fkTransformFails, ih1, ih2, ih3]

/-- The filtered list keeps the full length exactly when every element
satisfies the predicate. -/
theorem filter_length_eq_iff_all {α : Type} (p : α → Bool) :
    ∀ l : List α, ((l.filter p).length = l.length ↔ l.all p = true) := by
  intro l
  induction l with
  | nil => simp
  | cons a as ih =>
    cases h : p a
    · have hle := List.length_filter_le p as
      simp [List.filter_cons, h]
      omega
    · simp [List.filter_cons, h, ih]

/-- C7: for a non-empty FK request the response code follows the
precedence: some matched link failed its output-frame transform →
`FRAME_TRANSFORM_FAILURE`; otherwise every requested link matched →
`SUCCESS`; otherwise `INVALID_LINK_NAME`. -/
theorem fk_error_code_precedence (ctx : Ctx) (req : GetPositionFKRequest)
    (h : req.fk_link_names ≠ []) :
    (computeFKService ctx req).1.error_code =
      (if req.fk_link_names.any
          (fkTransformFails ctx (fkMergedState ctx req) (fkDoTransform ctx req)
            req.header_frame_id ctx.modelFrame)
        then ErrorCode.FRAME_TRANSFORM_FAILURE
        else if req.fk_link_names.all ctx.hasLinkModel then ErrorCode.SUCCESS
        else ErrorCode.INVALID_LINK_NAME) := by
  have hne : req.fk_link_names.isEmpty = false := by
    cases hq : req.fk_link_names
    · exact absurd hq h
    · rfl
  obtain ⟨h1, h2, h3⟩ := fkLoop_spec ctx (fkMergedState ctx req)
    (fkDoTransform ctx req) req.header_frame_id ctx.modelFrame req.fk_link_names
  rcases hr : fkLoop ctx (fkMergedState ctx req) (fkDoTransform ctx req)
      req.header_frame_id ctx.modelFrame req.fk_link_names
    with ⟨ns, ps, tfv, evs⟩
  rw [hr] at h1 h2 h3
  dsimp only at h1 h2 h3
  unfold computeFKService
  simp only [hne, Bool.false_eq_true, if_false, hr]
  rw [h3, h1]
  cases han : req.fk_link_names.any
      (fkTransformFails ctx (fkMergedState ctx req) (fkDoTransform ctx req)
        req.header_frame_id ctx.modelFrame)
  · simp only [Bool.false_eq_true, if_false]
    exact if_congr (filter_length_eq_iff_all ctx.hasLinkModel req.fk_link_names)
      rfl rfl
  · simp

/-- The concrete FK request with one known and one unknown link. -/
def reqFKW : GetPositionFKRequest :=
  { header_frame_id := "", fk_link_names := ["tip", "bogus"], robot_state := none }

/-- C7 witness: the precedence rule at a concrete request with one known
and one unknown link (no output-frame transform requested). -/
theorem fk_error_code_precedence_witness :
    (computeFKService ctxW reqFKW).1.error_code =
      (if reqFKW.fk_link_names.any
          (fkTransformFails ctxW (fkMergedState ctxW reqFKW)
            (fkDoTransform ctxW reqFKW) reqFKW.header_frame_id ctxW.modelFrame)
        then ErrorCode.FRAME_TRANSFORM_FAILURE
        else if reqFKW.fk_link_names.all ctxW.hasLinkModel then ErrorCode.SUCCESS
        else ErrorCode.INVALID_LINK_NAME) :=
  fk_error_code_precedence ctxW reqFKW (by decide)

/-- A link whose output-frame transform fails keeps its pose stamped in
the model's default frame. -/
theorem fkPoseFor_fail_frame (ctx : Ctx) (rs : RobotState) (dt : Bool)
    (target df : String) (l : String)
    (hfail : fkTransformFails ctx rs dt target df l = true) :
    (fkPoseFor ctx rs dt target df l).frame_id = df := by
  unfold fkTransformFails at hfail
  rw [Bool.and_eq_true, Bool.and_eq_true] at hfail
  obtain ⟨⟨-, hdt⟩, hnone⟩ := hfail
  rw [Option.isNone_iff_eq_none] at hnone
  unfold fkPoseFor
  rw [hdt]
  simp [hnone]

/-- C10: the FK response's matched-name list is exactly the requested
names that exist in the model in request order, the pose list is their
pose images (equal length), and a matched link whose output-frame
transform fails still gets a pose, left in the model's default frame. -/
theorem fk_response_shape (ctx : Ctx) (req : GetPositionFKRequest) :
    (computeFKService ctx req).1.fk_link_names =
      req.fk_link_names.filter ctx.hasLinkModel ∧
    (computeFKService ctx req).1.pose_stamped =
      (req.fk_link_names.filter ctx.hasLinkModel).map
        (fkPoseFor ctx (fkMergedState ctx req) (fkDoTransform ctx req)
          req.header_frame_id ctx.modelFrame) ∧
    (computeFKService ctx req).1.pose_stamped.length =
      (computeFKService ctx req).1.fk_link_names.length ∧
    (∀ l : String,
      fkTransformFails ctx (fkMergedState ctx req) (fkDoTransform ctx req)
        req.header_frame_id ctx.modelFrame l = true →
      (fkPoseFor ctx (fkMergedState ctx req) (fkDoTransform ctx req)
        req.header_frame_id ctx.modelFrame l).frame_id = ctx.modelFrame) := by
  refine ⟨?_, ?_, ?_, fun l hl => fkPoseFor_fail_frame ctx _ _ _ _ l hl⟩ <;>
    obtain ⟨h1, h2, h3⟩ := fkLoop_spec ctx (fkMergedState ctx req)
      (fkDoTransform ctx req) req.header_frame_id ctx.modelFrame
      req.fk_link_names <;>
    rcases hr : fkLoop ctx (fkMergedState ctx req) (fkDoTransform ctx req)
        req.header_frame_id ctx.modelFrame req.fk_link_names
      with ⟨ns, ps, tfv, evs⟩ <;>
    rw [hr] at h1 h2 h3 <;>
    dsimp only at h1 h2 h3 <;>
    cases hq : req.fk_link_names.isEmpty
  · unfold computeFKService
    simp only [hq, Bool.false_eq_true, if_false, hr]
    exact h1
  · rw [List.isEmpty_iff] at hq
    simp [computeFKService, hq]
  · unfold computeFKService
    simp only [hq, Bool.false_eq_true, if_false, hr]
    exact h2
  · rw [List.isEmpty_iff] at hq
    simp [computeFKService, hq]
  · unfold computeFKService
    simp only [hq, Bool.false_eq_true, if_false, hr]
    rw [h1, h2]
    simp
  · rw [List.isEmpty_iff] at hq
    simp [computeFKService, hq]

/-- A context whose pose transform fails whenever the target frame is
`unreachable`. -/
def ctxFK : Ctx :=
  { ctxW with
    performTransform := fun p target =>
      if target = "unreachable" then none else some { p with frame_id := target } }

/-- The concrete FK request asking for output in the unreachable frame. -/
def reqFKbad : GetPositionFKRequest :=
  { header_frame_id := "unreachable", fk_link_names := ["tip"], robot_state := none }

/-- C10 witness: at a concrete request whose output-frame transform fails,
the matched link's pose stays in the model's default frame. -/
theorem fk_response_shape_witness :
    (fkPoseFor ctxFK (fkMergedState ctxFK reqFKbad) (fkDoTransform ctxFK reqFKbad)
      reqFKbad.header_frame_id ctxFK.modelFrame "tip").frame_id =
      ctxFK.modelFrame :=
  (fk_response_shape ctxFK reqFKbad).2.2.2 "tip" (by decide)

/-- Contract of the external iterative solver (`RobotState::setFromIK`
with a validity callback): any solution state it returns was accepted by
the callback — it is the result of applying some accepted candidate joint
values for the group and updating the transforms. -/
def SolverSound (ctx : Ctx) : Prop :=
  (∀ (rs : RobotState) (jmg : JointModelGroup) (pose : Pose) (t : Int)
      (fn : GroupStateValidityCallbackFn) (rs2 : RobotState),
    ctx.setFromIK rs jmg pose t (some fn) = some rs2 →
    ∃ base sol, fn base jmg sol = true ∧
      rs2 = (base.setJointGroupPositions jmg sol).update) ∧
  (∀ (rs : RobotState) (jmg : JointModelGroup) (pose : Pose) (link : String)
      (t : Int) (fn : GroupStateValidityCallbackFn) (rs2 : RobotState),
    ctx.setFromIKLink rs jmg pose link t (some fn) = some rs2 →
    ∃ base sol, fn base jmg sol = true ∧
      rs2 = (base.setJointGroupPositions jmg sol).update) ∧
  (∀ (rs : RobotState) (jmg : JointModelGroup) (poses : List Pose)
      (links : List String) (t : Int) (fn : GroupStateValidityCallbackFn)
      (rs2 : RobotState),
    ctx.setFromIKMulti rs jmg poses links t (some fn) = some rs2 →
    ∃ base sol, fn base jmg sol = true ∧
      rs2 = (base.setJointGroupPositions jmg sol).update)

/-- With a sound solver, any solution state `computeIK` writes was
accepted by the supplied validity callback. -/
theorem computeIK_success_sound (ctx : Ctx) (req : PositionIKRequest)
    (rs0 : RobotState) (fn : GroupStateValidityCallbackFn)
    (jmg : JointModelGroup)
    (hg : ctx.getJointModelGroup req.group_name = some jmg)
    (hsound : SolverSound ctx) (rs2 : RobotState)
    (hsol : (computeIK ctx req rs0 (some fn)).solution = some rs2) :
    ∃ base sol, fn base jmg sol = true ∧
      rs2 = (base.setJointGroupPositions jmg sol).update := by
  unfold computeIK at hsol
  rw [hg] at hsol
  dsimp only at hsol
  split at hsol
  · split at hsol
    · simp at hsol
    · rename_i tp htp
      split at hsol
      · rename_i rsx hx
        simp at hsol
        subst hsol
        split at hx
        all_goals split at hx
        all_goals
          first
            | exact hsound.1 _ _ _ _ _ _ hx
            | exact hsound.2.1 _ _ _ _ _ _ _ hx
      · simp at hsol
  · split at hsol
    · simp at hsol
    · split at hsol
      · simp at hsol
      · split at hsol
        · rename_i rsx hx
          simp at hsol
          subst hsol
          exact hsound.2.2 _ _ _ _ _ _ _ hx
        · simp at hsol

/-- C8: with collision avoidance enabled, under the assumption that the
solver only returns callback-accepted configurations, any configuration
returned with `SUCCESS` by the IK service is collision-free in the
captured planning scene. -/
theorem collision_avoidance_safety (ctx : Ctx) (req : PositionIKRequest)
    (hsound : SolverSound ctx) (hav : req.avoid_collisions = true)
    (jmg : JointModelGroup)
    (hg : ctx.getJointModelGroup req.group_name = some jmg)
    (rsSol : RobotState)
    (_hcode : (computeIKService ctx req).1.error_code = ErrorCode.SUCCESS)
    (hsol : (computeIKService ctx req).1.solution = some rsSol) :
    ctx.planningScene.isStateColliding rsSol jmg.name = false := by
  have hcond : (req.avoid_collisions || ! req.constraints.isEmptyMsg) = true := by
    simp [hav]
  unfold computeIKService at hsol
  rw [if_pos hcond] at hsol
  dsimp only at hsol
  obtain ⟨base, sol, hfn, hrs⟩ :=
    computeIK_success_sound ctx req ctx.currentState _ jmg hg hsound rsSol hsol
  simp only [boundValidityFn, hav, if_true, isIKSolutionValid, Bool.and_eq_true,
    Bool.not_eq_true'] at hfn
  rw [hrs]
  exact hfn.1

/-- The witness solver contract: `ctxW`'s solver fields return a state
exactly when the callback accepts the candidate `[0, 0]`, so they are
sound. -/
theorem ctxW_sound : SolverSound ctxW := by
  refine ⟨?_, ?_, ?_⟩
  · intro rs jmg pose t fn rs2 h
    simp only [ctxW] at h
    split at h
    · rename_i hfn
      exact ⟨rs, [0, 0], hfn, by simpa using h.symm⟩
    · simp at h
  · intro rs jmg pose link t fn rs2 h
    simp only [ctxW] at h
    split at h
    · rename_i hfn
      exact ⟨rs, [0, 0], hfn, by simpa using h.symm⟩
    · simp at h
  · intro rs jmg poses links t fn rs2 h
    simp only [ctxW] at h
    split at h
    · rename_i hfn
      exact ⟨rs, [0, 0], hfn, by simpa using h.symm⟩
    · simp at h

/-- The concrete collision-avoiding request. -/
def reqAvoid : PositionIKRequest := { reqW with avoid_collisions := true }

/-- The solution state the witness run produces. -/
def solW : RobotState := { positions := [0, 0], transformsCurrent := true }

/-- C8 witness: the safety statement at a concrete collision-avoiding
request that succeeds, all hypotheses discharged by evaluation. -/
theorem collision_avoidance_safety_witness :
    ctxW.planningScene.isStateColliding solW armGroup.name = false :=
  collision_avoidance_safety ctxW reqAvoid ctxW_sound rfl armGroup (by decide)
    solW (by decide) (by decide)

end MoveGroupKS
